import Mathlib

/-!
Shallow embedding of the sharekaro session-sharing core (src/chrome.rs,
src/network.rs): the Cookie data model, the browser set/delete-cookie wire
messages, URL normalization, the cookie interchange loader, the relay's
broadcast fan-out and the peer client's receive loop.

JSON values are modelled by `JVal`; numbers are carried as rationals since
the code never computes with them, only passes them through. External
library calls (serde parsing of a raw byte string, socket writes, the
browser's responses) are modelled by their result, which is the only thing
the repository's control flow inspects.
-/

namespace Sharekaro

/-- JSON values as produced/consumed by serde_json. Objects are ordered
field lists; lookups are by first occurrence of a key. -/
inductive JVal : Type
  | null : JVal
  | bool : Bool → JVal
  | num : ℚ → JVal
  | str : String → JVal
  | arr : List JVal → JVal
  | obj : List (String × JVal) → JVal

/-- Field lookup on a JSON object; `none` for non-objects, mirroring
`Value::get` in serde_json. -/
def JVal.get (v : JVal) (k : String) : Option JVal :=
  match v with
  | .obj fields => fields.lookup k
  | _ => none

/-- `Value::as_str`. -/
def JVal.asStr : JVal → Option String
  | .str s => some s
  | _ => none

/-- `Value::as_array`. -/
def JVal.asArr : JVal → Option (List JVal)
  | .arr xs => some xs
  | _ => none

/-- The `Cookie` struct of src/chrome.rs lines 176-194: four mandatory
string fields, optional metadata, and a serde-flattened map `extra` that
captures every field not named in the struct. -/
structure Cookie : Type where
  domain : String
  expires : Option ℚ
  httpOnly : Option Bool
  name : String
  path : String
  priority : Option String
  sameParty : Option Bool
  sameSite : Option String
  secure : Option Bool
  session : Option Bool
  size : Option ℕ
  sourcePort : Option ℕ
  sourceScheme : Option String
  value : String
  extra : List (String × JVal)

/-- Rust's `str::starts_with` with a literal pattern: character-prefix
test. -/
def starts_with (s p : String) : Bool := p.data.isPrefixOf s.data

/-- `normalize_url` of src/chrome.rs lines 277-283
(`import_and_open_with_cookies_from_memory` inlines the identical
logic at lines 288-292). -/
def normalize_url (raw : String) : String :=
  if starts_with raw "http://" || starts_with raw "https://" then raw
  else "https://" ++ raw

/-- The per-cookie `Network.setCookie` params map built by
`import_and_open_with_cookies` (file-based revision, src/chrome.rs lines
225-243): optional fields are inserted whenever present, with their
value. -/
def setCookieParamsFile (c : Cookie) : List (String × JVal) :=
  [("name", .str c.name), ("value", .str c.value),
   ("domain", .str c.domain), ("path", .str c.path)] ++
  (match c.expires with | some e => [("expires", JVal.num e)] | none => []) ++
  (match c.secure with | some b => [("secure", JVal.bool b)] | none => []) ++
  (match c.httpOnly with | some b => [("httpOnly", JVal.bool b)] | none => []) ++
  (match c.sameSite with | some s => [("sameSite", JVal.str s)] | none => [])

/-- The per-cookie `Network.setCookie` params map built by
`import_and_open_with_cookies_from_memory` (src/chrome.rs lines 317-334):
`expires` and `sameSite` are inserted whenever present, but `secure` and
`httpOnly` only when present AND true (`if let Some(true) = ...`). -/
def setCookieParamsMemory (c : Cookie) : List (String × JVal) :=
  [("name", .str c.name), ("value", .str c.value),
   ("domain", .str c.domain), ("path", .str c.path)] ++
  (match c.expires with | some e => [("expires", JVal.num e)] | none => []) ++
  (match c.secure with | some true => [("secure", JVal.bool true)] | _ => []) ++
  (match c.httpOnly with | some true => [("httpOnly", JVal.bool true)] | _ => []) ++
  (match c.sameSite with | some s => [("sameSite", JVal.str s)] | none => [])

/-- The `Network.setCookie` request frame for the i-th cookie (`"id": 2 + i`). -/
def setCookieMsg (i : ℕ) (params : List (String × JVal)) : JVal :=
  .obj [("id", .num (2 + i)), ("method", .str "Network.setCookie"),
        ("params", .obj params)]

/-- The `Network.enable` request frame (`{"id": 1, "method": "Network.enable"}`). -/
def enableMsg : JVal :=
  .obj [("id", .num 1), ("method", .str "Network.enable")]

/-- The `Page.navigate` request frame (`"id": 10000`). -/
def navigateMsg (u : String) : JVal :=
  .obj [("id", .num 10000), ("method", .str "Page.navigate"),
        ("params", .obj [("url", .str u)])]

/-- The URL of the page-creation HTTP PUT issued by both open revisions:
`http://localhost:9222/json/new?{to_open}`. -/
def newPagePutUrl (to_open : String) : String :=
  "http://localhost:9222/json/new?" ++ to_open

/-- The wire trace of `import_and_open_with_cookies` (file revision) once
the cookie list is loaded: the page-creation PUT URL and the ordered
WebSocket frames (Network.enable, one setCookie per cookie, the final
navigate). -/
def openWireFile (cookies : List Cookie) (url : String) :
    String × List JVal :=
  let to_open := normalize_url url
  (newPagePutUrl to_open,
   enableMsg ::
     (((List.range cookies.length).zip cookies).map
       (fun p => setCookieMsg p.1 (setCookieParamsFile p.2)) ++
     [navigateMsg to_open]))

/-- The wire trace of `import_and_open_with_cookies_from_memory`: the
in-memory revision inlines the same URL normalization and issues the same
frame sequence, but builds its params with `setCookieParamsMemory`. -/
def openWireMemory (cookies : List Cookie) (url : String) :
    String × List JVal :=
  let to_open := normalize_url url
  (newPagePutUrl to_open,
   enableMsg ::
     (((List.range cookies.length).zip cookies).map
       (fun p => setCookieMsg p.1 (setCookieParamsMemory p.2)) ++
     [navigateMsg to_open]))

/-! ### serde decode/encode of the wire structs

`Cookie`, `GrantMessage`, `RevokeMessage`, `RevokeCookie` all carry derived
serde implementations. The derived decoder requires a JSON object, errors
on a missing or ill-typed required field, treats an `Option` field as
`None` when absent or null, ignores unknown fields (no
`deny_unknown_fields`), and for `Cookie` collects the unknown fields into
the flattened `extra` map. The derived encoder emits every struct field
(`None` as null) followed by the flattened `extra` entries. -/

/-- Decode a JSON string (`String` field). -/
def decStr : JVal → Option String
  | .str s => some s
  | _ => none

/-- Decode a JSON bool (`bool` field). -/
def decBool : JVal → Option Bool
  | .bool b => some b
  | _ => none

/-- Decode a JSON number (`f64` field). -/
def decNum : JVal → Option ℚ
  | .num q => some q
  | _ => none

/-- Decode a `u64` field: a non-negative integer JSON number. -/
def decNat : JVal → Option ℕ
  | .num q => if q.den = 1 ∧ 0 ≤ q.num then some q.num.toNat else none
  | _ => none

/-- Decode a `u16` field: an integer JSON number in `[0, 2^16)`. -/
def decPort : JVal → Option ℕ
  | .num q => if q.den = 1 ∧ 0 ≤ q.num ∧ q.num < 65536 then some q.num.toNat
              else none
  | _ => none

/-- Decode an `Option<T>` struct field from its (possibly absent) JSON
value: absent or null is `None`; anything else must decode at `T`. -/
def decOptField (dec : JVal → Option α) : Option JVal → Option (Option α)
  | none => some none
  | some .null => some none
  | some v => (dec v).map some

/-- The field names declared on the `Cookie` struct; everything else in a
cookie object lands in the flattened `extra` map. -/
def knownCookieKeys : List String :=
  ["domain", "expires", "httpOnly", "name", "path", "priority", "sameParty",
   "sameSite", "secure", "session", "size", "sourcePort", "sourceScheme",
   "value"]

/-- The required (non-`Option`) string fields of a cookie object:
name, value, domain, path; any missing or ill-typed → decode error. -/
def decodeCookieReq (fields : List (String × JVal)) :
    Option (String × String × String × String) := do
  let name ← (fields.lookup "name").bind decStr
  let value ← (fields.lookup "value").bind decStr
  let domain ← (fields.lookup "domain").bind decStr
  let path ← (fields.lookup "path").bind decStr
  some (name, value, domain, path)

/-- The optional fields expires, httpOnly, priority, sameParty, sameSite. -/
def decodeCookieOptsA (fields : List (String × JVal)) :
    Option (Option ℚ × Option Bool × Option String × Option Bool ×
      Option String) := do
  let expires ← decOptField decNum (fields.lookup "expires")
  let httpOnly ← decOptField decBool (fields.lookup "httpOnly")
  let priority ← decOptField decStr (fields.lookup "priority")
  let sameParty ← decOptField decBool (fields.lookup "sameParty")
  let sameSite ← decOptField decStr (fields.lookup "sameSite")
  some (expires, httpOnly, priority, sameParty, sameSite)

/-- The optional fields secure, session, size, sourcePort, sourceScheme. -/
def decodeCookieOptsB (fields : List (String × JVal)) :
    Option (Option Bool × Option Bool × Option ℕ × Option ℕ ×
      Option String) := do
  let secure ← decOptField decBool (fields.lookup "secure")
  let session ← decOptField decBool (fields.lookup "session")
  let size ← decOptField decNat (fields.lookup "size")
  let sourcePort ← decOptField decPort (fields.lookup "sourcePort")
  let sourceScheme ← decOptField decStr (fields.lookup "sourceScheme")
  some (secure, session, size, sourcePort, sourceScheme)

/-- Derived serde deserialization of `Cookie` from a JSON value. -/
def decodeCookie : JVal → Option Cookie
  | .obj fields => do
      let (name, value, domain, path) ← decodeCookieReq fields
      let (expires, httpOnly, priority, sameParty, sameSite) ←
        decodeCookieOptsA fields
      let (secure, session, size, sourcePort, sourceScheme) ←
        decodeCookieOptsB fields
      some { domain, expires, httpOnly, name, path, priority, sameParty,
             sameSite, secure, session, size, sourcePort, sourceScheme, value,
             extra := fields.filter (fun kv => !(knownCookieKeys.contains kv.1)) }
  | _ => none

/-- Encode an `Option` struct field; serde's default writes `None` as null. -/
def encOpt (enc : α → JVal) : Option α → JVal
  | none => .null
  | some a => enc a

/-- Derived serde serialization of `Cookie`: every declared field (with
nulls for absent options) followed by the flattened `extra` entries. -/
def encodeCookie (c : Cookie) : JVal :=
  .obj ([("domain", JVal.str c.domain),
         ("expires", encOpt JVal.num c.expires),
         ("httpOnly", encOpt JVal.bool c.httpOnly),
         ("name", JVal.str c.name),
         ("path", JVal.str c.path),
         ("priority", encOpt JVal.str c.priority),
         ("sameParty", encOpt JVal.bool c.sameParty),
         ("sameSite", encOpt JVal.str c.sameSite),
         ("secure", encOpt JVal.bool c.secure),
         ("session", encOpt JVal.bool c.session),
         ("size", encOpt (fun n => JVal.num n) c.size),
         ("sourcePort", encOpt (fun n => JVal.num n) c.sourcePort),
         ("sourceScheme", encOpt JVal.str c.sourceScheme),
         ("value", JVal.str c.value)] ++ c.extra)

/-- `GrantMessage` of src/network.rs lines 9-14. -/
structure GrantMessage : Type where
  tab_id : String
  url : String
  cookies : List Cookie

/-- `RevokeCookie` of src/network.rs lines 22-27. -/
structure RevokeCookie : Type where
  name : String
  domain : String
  path : String

/-- `RevokeMessage` of src/network.rs lines 16-20. -/
structure RevokeMessage : Type where
  tab_id : String
  cookies : List RevokeCookie

/-- Derived serde deserialization of `GrantMessage`; unknown fields (such
as the relay's `"type"` tag) are ignored. -/
def decodeGrantMessage : JVal → Option GrantMessage
  | .obj fields => do
      let tab_id ← (fields.lookup "tab_id").bind decStr
      let url ← (fields.lookup "url").bind decStr
      let carr ← (fields.lookup "cookies").bind JVal.asArr
      let cookies ← carr.mapM decodeCookie
      some { tab_id, url, cookies }
  | _ => none

/-- Derived serde deserialization of `RevokeCookie`. -/
def decodeRevokeCookie : JVal → Option RevokeCookie
  | .obj fields => do
      let name ← (fields.lookup "name").bind decStr
      let domain ← (fields.lookup "domain").bind decStr
      let path ← (fields.lookup "path").bind decStr
      some { name, domain, path }
  | _ => none

/-- Derived serde deserialization of `RevokeMessage`; unknown fields are
ignored. -/
def decodeRevokeMessage : JVal → Option RevokeMessage
  | .obj fields => do
      let tab_id ← (fields.lookup "tab_id").bind decStr
      let carr ← (fields.lookup "cookies").bind JVal.asArr
      let cookies ← carr.mapM decodeRevokeCookie
      some { tab_id, cookies }
  | _ => none

/-- Derived serde serialization of `GrantMessage`. -/
def encodeGrantMessage (g : GrantMessage) : JVal :=
  .obj [("tab_id", JVal.str g.tab_id), ("url", JVal.str g.url),
        ("cookies", JVal.arr (g.cookies.map encodeCookie))]

/-- Derived serde serialization of `RevokeMessage`. -/
def encodeRevokeMessage (r : RevokeMessage) : JVal :=
  .obj [("tab_id", JVal.str r.tab_id),
        ("cookies", JVal.arr (r.cookies.map fun c =>
          JVal.obj [("name", JVal.str c.name), ("domain", JVal.str c.domain),
                    ("path", JVal.str c.path)]))]

/-- The relay's tagging step (src/network.rs lines 66-69 and 75-78):
`serde_json::to_value` of the message, then insertion of a `"type"` field
into the object map. -/
def tagType (t : String) : JVal → JVal
  | .obj fields => .obj (fields ++ [("type", JVal.str t)])
  | v => v

/-- The tagged Grant frame the relay writes to every peer socket. -/
def grantFrame (g : GrantMessage) : JVal :=
  tagType "Grant" (encodeGrantMessage g)

/-- The tagged Revoke frame the relay writes to every peer socket. -/
def revokeFrame (r : RevokeMessage) : JVal :=
  tagType "Revoke" (encodeRevokeMessage r)

/-! ### The cookie interchange loader -/

/-- `universal_cookie_loader` (src/chrome.rs lines 259-276) after the file
content has been read and parsed into a JSON value: a bare array is decoded
as `Vec<Cookie>`; otherwise an object's `"cookies"` array field is decoded;
any other shape is the `"Unknown cookie JSON format"` error. A failing
element decode propagates as an error (serde's `?`). -/
def universal_cookie_loader (value : JVal) : Except String (List Cookie) :=
  match value.asArr with
  | some xs =>
      match xs.mapM decodeCookie with
      | some cookies => .ok cookies
      | none => .error "JSON decode error"
  | none =>
      match (value.get "cookies").bind JVal.asArr with
      | some xs =>
          match xs.mapM decodeCookie with
          | some cookies => .ok cookies
          | none => .error "JSON decode error"
      | none => .error "Unknown cookie JSON format"

/-! ### delete_cookies / revoke_cookies -/

/-- A page descriptor as returned by the browser's `/json` discovery
endpoint; only the fields `revoke_cookies` reads. -/
structure TabInfo : Type where
  id : String
  webSocketDebuggerUrl : Option String

/-- The `Network.deleteCookies` request frame for the i-th triple
(`"id": 10_000 + i`), src/chrome.rs lines 381-391. -/
def deleteCookiesMsg (i : ℕ) (name domain path : String) : JVal :=
  .obj [("id", .num (10000 + i)), ("method", .str "Network.deleteCookies"),
        ("params", .obj [("name", JVal.str name), ("domain", JVal.str domain),
                         ("path", JVal.str path)])]

/-- The write loop of `revoke_cookies`: one frame per triple, in input
order, each write guarded by `?` — the first failing socket write aborts
the remaining triples and returns the error. `writeOk i` models whether
the i-th `write_message` on this socket succeeds. No responses are ever
read, so per-item protocol outcomes are invisible to this function.
Returns the frames actually written and the function's result. -/
def revokeWriteLoop (writeOk : ℕ → Bool) :
    ℕ → List (String × String × String) → List JVal × Except String Unit
  | _, [] => ([], .ok ())
  | i, (n, d, p) :: rest =>
      if writeOk i then
        let r := revokeWriteLoop writeOk (i + 1) rest
        (deleteCookiesMsg i n d p :: r.1, r.2)
      else ([], .error "socket write failed")

/-- `revoke_cookies` (src/chrome.rs lines 360-396): resolve the tab id
against the `/json` tab list (`"tab not found"` if absent), require its
`webSocketDebuggerUrl`, then run the write loop. Transport failures of the
discovery GET or the WebSocket connect abort before any write; they are
external and not distinguished here. -/
def revoke_cookies (tabs : List TabInfo) (writeOk : ℕ → Bool)
    (tab_id : String) (cookies : List (String × String × String)) :
    List JVal × Except String Unit :=
  match tabs.find? (fun t => t.id == tab_id) with
  | none => ([], .error "tab not found")
  | some t =>
      match t.webSocketDebuggerUrl with
      | none => ([], .error "missing webSocketDebuggerUrl")
      | some _ => revokeWriteLoop writeOk 0 cookies

/-! ### The broadcast relay

`spawn_server` (src/network.rs lines 29-101) creates two
`tokio::sync::broadcast` channels of capacity 16 and binds a TCP listener,
panicking on bind failure. Each accepted peer subscribes to both channels
at accept time. A tokio broadcast channel is modelled by the log of every
value ever sent on it; a subscriber is a cursor into that log, initialized
at subscribe time to the current log length (no history is retained for
new subscribers). `recv` on a subscriber more than 16 entries behind the
head first drops the overwritten entries (tokio's lag behavior; the
`Ok(x) = rx.recv()` select arms in the forwarding task skip the `Lagged`
error and the next poll resumes at the oldest retained entry). -/

/-- `broadcast::channel(16)` capacity. -/
def broadcastCapacity : ℕ := 16

/-- A broadcast channel: the log of everything sent on it. -/
structure BroadcastChan (α : Type) : Type where
  log : List α

/-- A subscription: the index of the next entry to receive. -/
structure BroadcastSub : Type where
  pos : ℕ

/-- `subscribe` at accept time: the cursor starts at the current head, so
no previously published entry is ever delivered. -/
def subscribe (ch : BroadcastChan α) : BroadcastSub := ⟨ch.log.length⟩

/-- `send`: append to the log (the ring buffer drops entries older than
the last 16, which the `recvStep` cursor clamp accounts for). -/
def send (ch : BroadcastChan α) (a : α) : BroadcastChan α := ⟨ch.log ++ [a]⟩

/-- One successful `recv`: clamp the cursor to the oldest retained entry
(lag drop), then deliver the entry there; `none` when the subscriber has
seen everything (`recv` would block). -/
def recvStep (ch : BroadcastChan α) (pos : ℕ) : Option (α × ℕ) :=
  let p := max pos (ch.log.length - broadcastCapacity)
  if h : p < ch.log.length then some (ch.log.get ⟨p, h⟩, p + 1) else none

/-- Everything the subscriber observes if it now receives until the
channel would block, with no further publications (fuel-indexed;
`log.length` steps always suffice). -/
def drainAux : ℕ → BroadcastChan α → ℕ → List α
  | 0, _, _ => []
  | fuel + 1, ch, pos =>
      match recvStep ch pos with
      | none => []
      | some (a, pos') => a :: drainAux fuel ch pos'

/-- Drain a subscription. -/
def drain (ch : BroadcastChan α) (s : BroadcastSub) : List α :=
  drainAux ch.log.length ch s.pos

/-- `spawn_server`'s startup: `TcpListener::bind` panics on failure with
`Failed to bind server on {addr}: {e}` (src/network.rs lines 38-40); on
success the two broadcast channels are returned. A panic is modelled as
`Except.error`: nothing after it runs. -/
def spawn_server (addr : String) (bindResult : Except String Unit) :
    Except String (BroadcastChan GrantMessage × BroadcastChan RevokeMessage) :=
  match bindResult with
  | .error e => .error ("Failed to bind server on " ++ addr ++ ": " ++ e)
  | .ok _ => .ok (⟨[]⟩, ⟨[]⟩)

/-! ### The peer client receive loop -/

/-- One item yielded by `ws.next()` in `connect_client`: a text frame
(carrying serde_json's parse result of its payload: `none` = invalid
JSON), a non-text frame (binary/ping/pong), or a transport error
(`Some(Err(_))`). End of stream (`None`, connection closed) is the end of
the input list. -/
inductive WsItem : Type
  | text (parsed : Option JVal)
  | nontext
  | fail

/-- The client's environment: the outcome of
`import_and_open_with_cookies_from_memory` for a given cookie list and
URL (`some local_id` on success), and the browser state consulted by
`revoke_cookies`. -/
structure ClientEnv : Type where
  open_result : List Cookie → String → Option String
  tabs : List TabInfo
  writeOk : ℕ → Bool

/-- Resolution of a Revoke's target page (src/network.rs lines 164-168):
the identity-map entry for the wire `tab_id` when present, else the raw
`tab_id` itself. -/
def resolveRevokeTarget (m : List (String × String)) (tab_id : String) :
    String :=
  (m.lookup tab_id).getD tab_id

/-- Observable events of the client loop, in processing order. -/
inductive ClientEvent : Type
  | invalidJson
  | grantParseError
  | grantApplied (cookies : List Cookie) (url : String) (tab_id : String)
      (lid : Option String)
  | revokeParseError
  | revokeDispatched (local_id : String)
      (triples : List (String × String × String)) (trace : List JVal)
      (result : Except String Unit)
  | unknownType (t : Option JVal)

/-- Processing of one successfully parsed text frame (src/network.rs lines
132-188). The identity map is an association list with most-recent-first
lookup, observationally the `HashMap` insert-overwrites semantics. The
offloaded browser calls are taken synchronously: the Grant insert happens
when `open_result` succeeds, and the Revoke dispatch records what
`revoke_cookies` was called with and returned. -/
def processText (env : ClientEnv) (m : List (String × String)) (j : JVal) :
    List (String × String) × ClientEvent :=
  match (j.get "type").bind JVal.asStr with
  | some "Grant" =>
      match decodeGrantMessage j with
      | none => (m, .grantParseError)
      | some g =>
          match env.open_result g.cookies g.url with
          | some lid =>
              ((g.tab_id, lid) :: m,
               .grantApplied g.cookies g.url g.tab_id (some lid))
          | none => (m, .grantApplied g.cookies g.url g.tab_id none)
  | some "Revoke" =>
      match decodeRevokeMessage j with
      | none => (m, .revokeParseError)
      | some r =>
          let local_id := resolveRevokeTarget m r.tab_id
          let triples := r.cookies.map (fun c => (c.name, c.domain, c.path))
          let out := revoke_cookies env.tabs env.writeOk local_id triples
          (m, .revokeDispatched local_id triples out.1 out.2)
  | _ => (m, .unknownType (j.get "type"))

/-- The receive loop of `connect_client` (src/network.rs lines 121-189):
`while let Some(Ok(Message::Text(text)))`. Text frames are processed
(invalid JSON logged and skipped); the first non-text item or transport
error fails the while-let pattern and exits the loop, returning the
unconsumed remainder as the third component. -/
def connect_client_loop (env : ClientEnv) (m : List (String × String)) :
    List WsItem → List (String × String) × List ClientEvent × List WsItem
  | [] => (m, [], [])
  | .text none :: rest =>
      let r := connect_client_loop env m rest
      (r.1, .invalidJson :: r.2.1, r.2.2)
  | .text (some j) :: rest =>
      let p := processText env m j
      let r := connect_client_loop env p.1 rest
      (r.1, p.2 :: r.2.1, r.2.2)
  | item :: rest => (m, [], item :: rest)

/-! ### Concrete data used by witnesses and counterexamples -/

/-- A cookie whose `secure` flag is present with value `false`; the
in-memory set-cookie builder drops it. -/
def c5cookie : Cookie :=
  { domain := ".example.com", expires := none, httpOnly := none,
    name := "sid", path := "/", priority := none, sameParty := none,
    sameSite := none, secure := some false, session := none, size := none,
    sourcePort := none, sourceScheme := none, value := "xyz", extra := [] }

/-- A cookie with every optional field the in-memory builder can send. -/
def c5full : Cookie :=
  { domain := ".example.com", expires := some 1234, httpOnly := some true,
    name := "sid", path := "/", priority := none, sameParty := none,
    sameSite := some "Lax", secure := some true, session := none,
    size := none, sourcePort := none, sourceScheme := none, value := "xyz",
    extra := [] }

/-- The delete-request trace `revoke_cookies` is specified to produce: one
`Network.deleteCookies` frame per triple, in input order, with ids
10000, 10001, ... -/
def deleteMsgs (i : ℕ) : List (String × String × String) → List JVal
  | [] => []
  | (n, d, p) :: rest => deleteCookiesMsg i n d p :: deleteMsgs (i + 1) rest

/-- A browser with one live tab, for the delete-cookies theorems. -/
def c6tabs : List TabInfo :=
  [{ id := "tab1",
     webSocketDebuggerUrl := some "ws://127.0.0.1:9222/devtools/page/tab1" }]

/-- Two delete triples. -/
def c6triples : List (String × String × String) :=
  [("sid", ".example.com", "/"), ("foo", ".example.com", "/p")]

/-- A cookie with `secure: Some(false)`, on which the file-based and
in-memory open revisions build different set-cookie params. -/
def c10cookie : Cookie :=
  { domain := "example.org", expires := none, httpOnly := none,
    name := "tok", path := "/", priority := none, sameParty := none,
    sameSite := none, secure := some false, session := none, size := none,
    sourcePort := none, sourceScheme := none, value := "v", extra := [] }

/-- A cookie on which the two open revisions agree (`secure`/`httpOnly`
absent or true). -/
def c10agree : Cookie :=
  { domain := "example.org", expires := some 99, httpOnly := some true,
    name := "tok", path := "/", priority := none, sameParty := none,
    sameSite := some "Strict", secure := some true, session := none,
    size := none, sourcePort := none, sourceScheme := none, value := "v",
    extra := [] }

/-- A client environment whose browser successfully opens pages as
`"LOCAL1"` and has no live tabs. -/
def c1env : ClientEnv :=
  { open_result := fun _ _ => some "LOCAL1", tabs := [], writeOk := fun _ => true }

/-- A concrete Grant. -/
def c1grant : GrantMessage :=
  { tab_id := "abc", url := "example.com", cookies := [] }

/-- A concrete Revoke for the same session id. -/
def c1revoke : RevokeMessage :=
  { tab_id := "abc",
    cookies := [RevokeCookie.mk "sid" ".example.com" "/"] }

/-- A client environment for the unmapped-revoke witness. -/
def c3env : ClientEnv :=
  { open_result := fun _ _ => none, tabs := [], writeOk := fun _ => true }

/-- A Revoke for a session id this client never saw. -/
def c3revoke : RevokeMessage :=
  { tab_id := "never-seen",
    cookies := [RevokeCookie.mk "sid" ".example.com" "/"] }

/-- A client environment for the malformed-frame theorems. -/
def c4env : ClientEnv :=
  { open_result := fun _ _ => some "L9", tabs := [], writeOk := fun _ => true }

/-- A well-formed Grant frame as the relay would send it. -/
def c4goodFrame : JVal :=
  grantFrame { tab_id := "t9", url := "example.com", cookies := [] }

/-- A malformed Grant frame: tagged `"Grant"` but missing `cookies`. -/
def c4badGrant : JVal :=
  .obj [("type", JVal.str "Grant"), ("tab_id", JVal.str "t9"),
        ("url", JVal.str "example.com")]

/-- The i-th Grant of a publication burst. -/
def grantAt (i : ℕ) : GrantMessage :=
  { tab_id := toString i, url := "u", cookies := [] }

/-- Seventeen Grants published before the subscribed peer's forwarder
drains — one more than the channel capacity. -/
def chBurst : BroadcastChan GrantMessage :=
  ⟨(List.range 17).map grantAt⟩

/-- A channel with two published Grants. -/
def c2small : BroadcastChan GrantMessage :=
  ⟨[{ tab_id := "a", url := "u", cookies := [] },
    { tab_id := "b", url := "u", cookies := [] }]⟩

/-- A cookie object with the four required fields and one field not named
in the `Cookie` struct. -/
def c8fields : List (String × JVal) :=
  [("name", JVal.str "sid"), ("value", JVal.str "xyz"),
   ("domain", JVal.str ".example.com"), ("path", JVal.str "/"),
   ("weird", JVal.str "keepme")]

/-- The cookie `c8fields` decodes to: the unknown field lands in `extra`. -/
def c8cookie : Cookie :=
  { domain := ".example.com", expires := none, httpOnly := none,
    name := "sid", path := "/", priority := none, sameParty := none,
    sameSite := none, secure := none, session := none, size := none,
    sourcePort := none, sourceScheme := none, value := "xyz",
    extra := [("weird", JVal.str "keepme")] }

/-! ## Theorems -/

/-- The write loop sends every frame in input order when all socket writes
succeed. -/
lemma revokeWriteLoop_ok (w : ℕ → Bool)
    (ts : List (String × String × String)) :
    ∀ i, (∀ k, k < ts.length → w (i + k) = true) →
      revokeWriteLoop w i ts = (deleteMsgs i ts, .ok ()) := by
  induction ts with
  | nil => intro i _; rfl
  | cons t rest ih =>
      intro i h
      obtain ⟨n, d, p⟩ := t
      have h0 : w i = true := by simpa using h 0 (by simp)
      have hrest : ∀ k, k < rest.length → w (i + 1 + k) = true := by
        intro k hk
        have : i + 1 + k = i + (k + 1) := by omega
        rw [this]
        exact h (k + 1) (by simpa using Nat.succ_lt_succ hk)
      simp [revokeWriteLoop, h0, deleteMsgs, ih (i + 1) hrest]

/-- The write loop aborts at the first failing socket write: frames for
the earlier triples were sent, nothing after the failure, and the error is
returned. -/
lemma revokeWriteLoop_fail (w : ℕ → Bool) :
    ∀ (ts : List (String × String × String)) (i j : ℕ), j < ts.length →
      w (i + j) = false → (∀ k, k < j → w (i + k) = true) →
      revokeWriteLoop w i ts =
        (deleteMsgs i (ts.take j), .error "socket write failed") := by
  intro ts
  induction ts with
  | nil => intro i j hj _ _; simp at hj
  | cons t rest ih =>
      intro i j hj hfail hok
      obtain ⟨n, d, p⟩ := t
      cases j with
      | zero =>
          have h0 : w i = false := by simpa using hfail
          simp [revokeWriteLoop, h0, deleteMsgs]
      | succ j' =>
          have h0 : w i = true := by simpa using hok 0 (Nat.succ_pos j')
          have hfail' : w (i + 1 + j') = false := by
            have : i + 1 + j' = i + (j' + 1) := by omega
            rw [this]; exact hfail
          have hok' : ∀ k, k < j' → w (i + 1 + k) = true := by
            intro k hk
            have : i + 1 + k = i + (k + 1) := by omega
            rw [this]
            exact hok (k + 1) (by omega)
          have hj' : j' < rest.length := by simpa using hj
          simp [revokeWriteLoop, h0, deleteMsgs, ih (i + 1) j' hj' hfail' hok']

/-- Claim C6 counterexample: the claim says a failure on one triple does
not abort the remaining triples and that per-item failures are collected;
but when the first socket write fails, `revoke_cookies` returns
immediately (the `?` on `write_message`): no request is issued for the
second triple and the result is the single transport error — nothing is
collected. -/
theorem C6_write_failure_aborts_cex :
    revoke_cookies c6tabs (fun _ => false) "tab1" c6triples =
      ([], .error "socket write failed") := rfl

/-- Claim C6 (amended): one delete request is issued per triple, in input
order (ids 10000+i); when every socket write succeeds the whole trace is
sent and the result is Ok; the first failing socket write aborts the
remaining triples and its error becomes the operation's result. Per-item
CDP responses are never read, so per-item failures are not collected. -/
theorem C6_delete_requests_amended (tabs : List TabInfo) (w : ℕ → Bool)
    (tid : String) (triples : List (String × String × String)) (t : TabInfo)
    (htab : tabs.find? (fun x => x.id == tid) = some t)
    (hws : ∃ u, t.webSocketDebuggerUrl = some u) :
    ((∀ k, k < triples.length → w k = true) →
      revoke_cookies tabs w tid triples = (deleteMsgs 0 triples, .ok ())) ∧
    (∀ j, j < triples.length → w j = false → (∀ k, k < j → w k = true) →
      revoke_cookies tabs w tid triples =
        (deleteMsgs 0 (triples.take j), .error "socket write failed")) := by
  obtain ⟨u, hu⟩ := hws
  constructor
  · intro hall
    simp only [revoke_cookies, htab, hu]
    exact revokeWriteLoop_ok w triples 0 (fun k hk => by simpa using hall k hk)
  · intro j hj hfail hok
    simp only [revoke_cookies, htab, hu]
    exact revokeWriteLoop_fail w triples 0 j hj (by simpa using hfail)
      (fun k hk => by simpa using hok k hk)

/-- Claim C6 witness: with both writes succeeding, the two delete frames
go out in input order and the result is Ok. -/
theorem C6_delete_requests_amended_witness :
    revoke_cookies c6tabs (fun _ => true) "tab1" c6triples =
      ([deleteCookiesMsg 0 "sid" ".example.com" "/",
        deleteCookiesMsg 1 "foo" ".example.com" "/p"], .ok ()) :=
  ((C6_delete_requests_amended c6tabs (fun _ => true) "tab1" c6triples
      { id := "tab1",
        webSocketDebuggerUrl := some "ws://127.0.0.1:9222/devtools/page/tab1" }
      rfl ⟨_, rfl⟩).1 (fun _ _ => rfl)).trans (by rfl)

/-- The two open revisions build the same set-cookie params for a cookie
whose `secure` and `httpOnly` fields are each absent or `true`. -/
lemma params_agree (c : Cookie) (h1 : c.secure ≠ some false)
    (h2 : c.httpOnly ≠ some false) :
    setCookieParamsFile c = setCookieParamsMemory c := by
  obtain ⟨dom, exp, ho, nm, pa, pr, sp, ss, sec, sess, sz, spo, ssc, v, ex⟩ := c
  rcases sec with _ | b1 <;> rcases ho with _ | b2 <;>
    (try cases b1) <;> (try cases b2) <;>
    first
      | rfl
      | exact absurd rfl h1
      | exact absurd rfl h2

/-- Claim C10 counterexample: the claim says the file-based and in-memory
open operations build identical per-cookie set-cookie maps; on a cookie
with `secure: Some(false)` the file revision sends `"secure": false` while
the in-memory revision omits the key, so the wire traces differ. -/
theorem C10_secure_false_divergence_cex :
    (setCookieParamsFile c10cookie).lookup "secure" =
      some (JVal.bool false) ∧
    (setCookieParamsMemory c10cookie).lookup "secure" = none ∧
    (openWireFile [c10cookie] "example.com").2 ≠
      (openWireMemory [c10cookie] "example.com").2 := by
  refine ⟨rfl, rfl, fun h => ?_⟩
  have h2 := congrArg (fun l : List JVal =>
    ((l.get? 1).bind (fun v => v.get "params")).bind
      (fun p => p.get "secure")) h
  exact Option.noConfusion h2

/-- Claim C10 (amended): whenever no cookie carries `secure: Some(false)`
or `httpOnly: Some(false)`, the file-based and in-memory open operations
produce identical wire behavior — the same page-creation PUT, the same
enable/set-cookie/navigate frames with identical ids and params, in the
same order. (They diverge exactly on `Some(false)` flags, which the
in-memory revision drops.) -/
theorem C10_wire_equiv_amended (cookies : List Cookie) (url : String)
    (h1 : ∀ c ∈ cookies, c.secure ≠ some false)
    (h2 : ∀ c ∈ cookies, c.httpOnly ≠ some false) :
    openWireFile cookies url = openWireMemory cookies url := by
  have hmap : ∀ p ∈ (List.range cookies.length).zip cookies,
      setCookieMsg p.1 (setCookieParamsFile p.2) =
        setCookieMsg p.1 (setCookieParamsMemory p.2) := by
    intro p hp
    obtain ⟨i, c⟩ := p
    have hc : c ∈ cookies := (List.of_mem_zip hp).2
    rw [params_agree c (h1 c hc) (h2 c hc)]
  unfold openWireFile openWireMemory
  rw [List.map_congr_left hmap]

/-- Claim C10 witness: the two revisions agree on a concrete cookie whose
optional flags are present and true. -/
theorem C10_wire_equiv_amended_witness :
    openWireFile [c10agree] "https://example.org" =
      openWireMemory [c10agree] "https://example.org" :=
  C10_wire_equiv_amended [c10agree] "https://example.org"
    (by decide) (by decide)

/-- Claim C7: for every target_url input to the open operation, the URL
actually opened (the page-creation PUT) and navigated to equals the input
when it already starts with `http://` or `https://`, and equals the input
prefixed with `https://` otherwise. -/
theorem C7_url_normalization (cookies : List Cookie) (url : String) :
    (starts_with url "http://" = true ∨ starts_with url "https://" = true →
      normalize_url url = url) ∧
    (starts_with url "http://" = false → starts_with url "https://" = false →
      normalize_url url = "https://" ++ url) ∧
    (openWireMemory cookies url).1 = newPagePutUrl (normalize_url url) ∧
    (openWireMemory cookies url).2.getLast? =
      some (navigateMsg (normalize_url url)) ∧
    (openWireFile cookies url).1 = newPagePutUrl (normalize_url url) ∧
    (openWireFile cookies url).2.getLast? =
      some (navigateMsg (normalize_url url)) := by
  refine ⟨?_, ?_, rfl, ?_, rfl, ?_⟩
  · intro h
    rcases h with h | h <;> simp [normalize_url, h]
  · intro h1 h2
    simp [normalize_url, h1, h2]
  · show (enableMsg :: (_ ++ [navigateMsg (normalize_url url)])).getLast? = _
    rw [← List.cons_append, List.getLast?_concat]
  · show (enableMsg :: (_ ++ [navigateMsg (normalize_url url)])).getLast? = _
    rw [← List.cons_append, List.getLast?_concat]

/-- Claim C7 witness: a bare host is opened as its https version. -/
theorem C7_url_normalization_witness :
    normalize_url "example.com" = "https://example.com" ∧
    (openWireMemory [] "example.com").1 =
      "http://localhost:9222/json/new?https://example.com" :=
  ⟨(C7_url_normalization [] "example.com").2.1 (by decide) (by decide),
   ((C7_url_normalization [] "example.com").2.2.1).trans (by rfl)⟩

/-- Claim C5 counterexample: the claim says every optional field present on
the cookie is included with its present value, but for a cookie whose
`secure` field is present with value `false`,
`import_and_open_with_cookies_from_memory` omits the `secure` key entirely
(`if let Some(true) = cookie.secure`). -/
theorem C5_secure_false_omitted_cex :
    c5cookie.secure = some false ∧
    (setCookieParamsMemory c5cookie).lookup "secure" = none :=
  ⟨rfl, rfl⟩

/-- Claim C5 (amended): the mandatory name/value/domain/path are always
included; `expires` and `sameSite` are included exactly when present, with
their present value; `secure` and `httpOnly` are included (with value
`true`) exactly when present with value `true`, and omitted when absent or
`false`; no key is ever sent as null. -/
theorem C5_params_amended (c : Cookie) :
    (setCookieParamsMemory c).lookup "name" = some (JVal.str c.name) ∧
    (setCookieParamsMemory c).lookup "value" = some (JVal.str c.value) ∧
    (setCookieParamsMemory c).lookup "domain" = some (JVal.str c.domain) ∧
    (setCookieParamsMemory c).lookup "path" = some (JVal.str c.path) ∧
    (setCookieParamsMemory c).lookup "expires" = c.expires.map JVal.num ∧
    (setCookieParamsMemory c).lookup "sameSite" = c.sameSite.map JVal.str ∧
    (setCookieParamsMemory c).lookup "secure" =
      (if c.secure = some true then some (JVal.bool true) else none) ∧
    (setCookieParamsMemory c).lookup "httpOnly" =
      (if c.httpOnly = some true then some (JVal.bool true) else none) ∧
    (∀ kv ∈ setCookieParamsMemory c, kv.2 ≠ JVal.null) := by
  obtain ⟨dom, exp, ho, nm, pa, pr, sp, ss, sec, sess, sz, spo, ssc, v, ex⟩ := c
  rcases exp with _ | e <;> rcases ss with _ | s <;>
    rcases sec with _ | b1 <;> rcases ho with _ | b2 <;>
    (try cases b1) <;> (try cases b2) <;>
    exact ⟨rfl, rfl, rfl, rfl, rfl, rfl, rfl, rfl,
      by simp [setCookieParamsMemory]⟩

/-- Claim C5 witness: the amended statement evaluated on a concrete
cookie carrying all four optional fields. -/
theorem C5_params_amended_witness :
    (setCookieParamsMemory c5full).lookup "expires" = some (JVal.num 1234) ∧
    (setCookieParamsMemory c5full).lookup "secure" = some (JVal.bool true) ∧
    (setCookieParamsMemory c5full).lookup "sameSite" = some (JVal.str "Lax") :=
  ⟨((C5_params_amended c5full).2.2.2.2.1).trans (by rfl),
   ((C5_params_amended c5full).2.2.2.2.2.2.1).trans (by rfl),
   ((C5_params_amended c5full).2.2.2.2.2.1).trans (by rfl)⟩

/-- Claim C9: relay startup with a failing bind aborts fatally (the
`panic!` is the error outcome; no channels are ever produced), and the
failure message names both the bind address and the underlying error. -/
theorem C9_bind_failure_fatal (addr e : String) :
    spawn_server addr (.error e) =
      .error ("Failed to bind server on " ++ addr ++ ": " ++ e) ∧
    (∀ chans, spawn_server addr (.error e) ≠ .ok chans) ∧
    (∃ pre post,
      "Failed to bind server on " ++ addr ++ ": " ++ e = pre ++ addr ++ post) ∧
    (∃ pre, "Failed to bind server on " ++ addr ++ ": " ++ e = pre ++ e) := by
  refine ⟨rfl, fun chans h => by simp [spawn_server] at h, ?_, ⟨_, rfl⟩⟩
  exact ⟨"Failed to bind server on ", ": " ++ e, by
    simp [String.append_assoc]⟩

/-- Claim C9 witness: a concrete address-in-use failure. -/
theorem C9_bind_failure_fatal_witness :
    spawn_server "0.0.0.0:9234" (.error "address in use") =
      .error "Failed to bind server on 0.0.0.0:9234: address in use" :=
  ((C9_bind_failure_fatal "0.0.0.0:9234" "address in use").1).trans (by rfl)

/-- Claim C1: a client that applied a Grant with session id S whose local
open succeeded with page id L resolves a later Revoke carrying S to L (the
mapped local id), not to S, and dispatches delete_cookies against L. -/
theorem C1_revoke_targets_mapped_local (env : ClientEnv)
    (m : List (String × String)) (jg jr : JVal) (g : GrantMessage)
    (r : RevokeMessage) (L : String)
    (hgt : (jg.get "type").bind JVal.asStr = some "Grant")
    (hg : decodeGrantMessage jg = some g)
    (hopen : env.open_result g.cookies g.url = some L)
    (hrt : (jr.get "type").bind JVal.asStr = some "Revoke")
    (hr : decodeRevokeMessage jr = some r)
    (hsid : r.tab_id = g.tab_id) :
    resolveRevokeTarget (processText env m jg).1 r.tab_id = L ∧
    (processText env (processText env m jg).1 jr).2 =
      .revokeDispatched L
        (r.cookies.map fun c => (c.name, c.domain, c.path))
        (revoke_cookies env.tabs env.writeOk L
          (r.cookies.map fun c => (c.name, c.domain, c.path))).1
        (revoke_cookies env.tabs env.writeOk L
          (r.cookies.map fun c => (c.name, c.domain, c.path))).2 := by
  have hm : (processText env m jg).1 = (g.tab_id, L) :: m := by
    simp only [processText, hgt, hg, hopen]
  have hres : resolveRevokeTarget ((g.tab_id, L) :: m) r.tab_id = L := by
    rw [hsid]
    simp [resolveRevokeTarget, List.lookup]
  refine ⟨by rw [hm]; exact hres, ?_⟩
  rw [hm]
  simp only [processText, hrt, hr, hres]

/-- Claim C1 witness: applying a concrete Grant frame and then a Revoke
frame with the same session id dispatches the delete against the recorded
local page id. -/
theorem C1_revoke_targets_mapped_local_witness :
    resolveRevokeTarget (processText c1env [] (grantFrame c1grant)).1
      c1revoke.tab_id = "LOCAL1" ∧
    (processText c1env (processText c1env [] (grantFrame c1grant)).1
      (revokeFrame c1revoke)).2 =
      .revokeDispatched "LOCAL1" [("sid", ".example.com", "/")] []
        (.error "tab not found") :=
  ⟨(C1_revoke_targets_mapped_local c1env [] (grantFrame c1grant)
      (revokeFrame c1revoke) c1grant c1revoke "LOCAL1"
      rfl rfl rfl rfl rfl rfl).1,
   ((C1_revoke_targets_mapped_local c1env [] (grantFrame c1grant)
      (revokeFrame c1revoke) c1grant c1revoke "LOCAL1"
      rfl rfl rfl rfl rfl rfl).2).trans (by rfl)⟩

/-- Claim C3: a Revoke whose session id has no identity-map entry falls
back to the raw session id as the local page id, the dispatched
delete_cookies reports the not-found failure in its result, and the
receive loop continues with subsequent frames. -/
theorem C3_unmapped_revoke_fallback (env : ClientEnv)
    (m : List (String × String)) (jr : JVal) (r : RevokeMessage)
    (rest : List WsItem)
    (hrt : (jr.get "type").bind JVal.asStr = some "Revoke")
    (hr : decodeRevokeMessage jr = some r)
    (hmiss : m.lookup r.tab_id = none)
    (hnotab : env.tabs.find? (fun t => t.id == r.tab_id) = none) :
    resolveRevokeTarget m r.tab_id = r.tab_id ∧
    processText env m jr =
      (m, .revokeDispatched r.tab_id
        (r.cookies.map fun c => (c.name, c.domain, c.path)) []
        (.error "tab not found")) ∧
    connect_client_loop env m (.text (some jr) :: rest) =
      ((connect_client_loop env m rest).1,
       .revokeDispatched r.tab_id
         (r.cookies.map fun c => (c.name, c.domain, c.path)) []
         (.error "tab not found") :: (connect_client_loop env m rest).2.1,
       (connect_client_loop env m rest).2.2) := by
  have hres : resolveRevokeTarget m r.tab_id = r.tab_id := by
    simp [resolveRevokeTarget, hmiss]
  have hrc : revoke_cookies env.tabs env.writeOk r.tab_id
      (r.cookies.map fun c => (c.name, c.domain, c.path)) =
      ([], .error "tab not found") := by
    simp only [revoke_cookies, hnotab]
  have hp : processText env m jr =
      (m, .revokeDispatched r.tab_id
        (r.cookies.map fun c => (c.name, c.domain, c.path)) []
        (.error "tab not found")) := by
    simp only [processText, hrt, hr, hres, hrc]
  refine ⟨hres, hp, ?_⟩
  simp only [connect_client_loop, hp]

/-- Claim C3 witness: a Revoke for a never-seen session id on a client
with an empty identity map and no matching tab. -/
theorem C3_unmapped_revoke_fallback_witness :
    resolveRevokeTarget [] c3revoke.tab_id = "never-seen" ∧
    processText c3env [] (revokeFrame c3revoke) =
      ([], .revokeDispatched "never-seen" [("sid", ".example.com", "/")] []
        (.error "tab not found")) :=
  ⟨(C3_unmapped_revoke_fallback c3env [] (revokeFrame c3revoke) c3revoke []
      rfl rfl rfl rfl).1,
   ((C3_unmapped_revoke_fallback c3env [] (revokeFrame c3revoke) c3revoke []
      rfl rfl rfl rfl).2.1).trans (by rfl)⟩

/-- The receive loop consumes its whole input when every item is a text
frame: only a non-text item or a transport error can end it early. -/
lemma loop_consumes_all_text (env : ClientEnv) :
    ∀ (items : List WsItem) (m : List (String × String)),
      (∀ it ∈ items, ∃ p, it = WsItem.text p) →
      (connect_client_loop env m items).2.2 = [] := by
  intro items
  induction items with
  | nil => intro m _; rfl
  | cons it rest ih =>
      intro m hall
      obtain ⟨p, rfl⟩ := hall it (by simp)
      cases p with
      | none =>
          simpa [connect_client_loop] using
            ih m (fun x hx => hall x (by simp [hx]))
      | some j =>
          simpa [connect_client_loop] using
            ih (processText env m j).1 (fun x hx => hall x (by simp [hx]))

/-- Claim C4 counterexample: the claim says the receive loop terminates
only on connection loss; but the `while let Some(Ok(Message::Text(..)))`
condition also exits on any non-text frame, so a binary frame followed by
a perfectly well-formed Grant frame leaves the Grant unprocessed — even
though the same Grant frame alone is processed fine. -/
theorem C4_nontext_terminates_cex :
    connect_client_loop c4env []
      [WsItem.nontext, WsItem.text (some c4goodFrame)] =
      ([], [], [WsItem.nontext, WsItem.text (some c4goodFrame)]) ∧
    (connect_client_loop c4env [] [WsItem.text (some c4goodFrame)]).2.1 =
      [ClientEvent.grantApplied [] "example.com" "t9" (some "L9")] :=
  ⟨rfl, rfl⟩

/-- Claim C4 (amended): every malformed TEXT frame — invalid JSON, a
tagged Grant/Revoke that fails to decode (e.g. missing `cookies`), or an
unrecognized type tag — is logged and skipped and the loop continues with
the remaining frames undisturbed; the loop runs to end of stream when all
frames are text, and exits early on the first non-text frame or transport
error (in addition to connection loss). -/
theorem C4_malformed_skipped_amended (env : ClientEnv)
    (m : List (String × String)) (rest : List WsItem) :
    (connect_client_loop env m (.text none :: rest) =
      ((connect_client_loop env m rest).1,
       .invalidJson :: (connect_client_loop env m rest).2.1,
       (connect_client_loop env m rest).2.2)) ∧
    (∀ j, (j.get "type").bind JVal.asStr = some "Grant" →
      decodeGrantMessage j = none →
      connect_client_loop env m (.text (some j) :: rest) =
        ((connect_client_loop env m rest).1,
         .grantParseError :: (connect_client_loop env m rest).2.1,
         (connect_client_loop env m rest).2.2)) ∧
    (∀ j, (j.get "type").bind JVal.asStr = some "Revoke" →
      decodeRevokeMessage j = none →
      connect_client_loop env m (.text (some j) :: rest) =
        ((connect_client_loop env m rest).1,
         .revokeParseError :: (connect_client_loop env m rest).2.1,
         (connect_client_loop env m rest).2.2)) ∧
    (∀ j, (j.get "type").bind JVal.asStr ≠ some "Grant" →
      (j.get "type").bind JVal.asStr ≠ some "Revoke" →
      connect_client_loop env m (.text (some j) :: rest) =
        ((connect_client_loop env m rest).1,
         .unknownType (j.get "type") :: (connect_client_loop env m rest).2.1,
         (connect_client_loop env m rest).2.2)) ∧
    (connect_client_loop env m (.nontext :: rest) = (m, [], .nontext :: rest)) ∧
    (connect_client_loop env m (.fail :: rest) = (m, [], .fail :: rest)) ∧
    (∀ items : List WsItem, (∀ it ∈ items, ∃ p, it = WsItem.text p) →
      (connect_client_loop env m items).2.2 = []) := by
  refine ⟨rfl, ?_, ?_, ?_, rfl, rfl, fun items h => loop_consumes_all_text env items m h⟩
  · intro j hgt hgd
    have hp : processText env m j = (m, .grantParseError) := by
      simp only [processText, hgt, hgd]
    simp only [connect_client_loop, hp]
  · intro j hrt hrd
    have hp : processText env m j = (m, .revokeParseError) := by
      simp only [processText, hrt, hrd]
    simp only [connect_client_loop, hp]
  · intro j hG hR
    have hp : processText env m j = (m, .unknownType (j.get "type")) := by
      unfold processText
      split <;> simp_all
    simp only [connect_client_loop, hp]

/-- Claim C4 witness: a malformed Grant frame (no `cookies`) is skipped
and a following well-formed Grant on the same connection is still
processed. -/
theorem C4_malformed_skipped_amended_witness :
    connect_client_loop c4env []
      [WsItem.text (some c4badGrant), WsItem.text (some c4goodFrame)] =
      ([("t9", "L9")],
       [ClientEvent.grantParseError,
        ClientEvent.grantApplied [] "example.com" "t9" (some "L9")], []) :=
  ((C4_malformed_skipped_amended c4env [] [WsItem.text (some c4goodFrame)]).2.1
      c4badGrant rfl rfl).trans (by rfl)

/-- Draining a subscription yields the log suffix from the cursor, clamped
to the last `broadcastCapacity` entries (tokio's lag drop). -/
lemma drainAux_eq_drop (ch : BroadcastChan α) :
    ∀ (fuel pos : ℕ), ch.log.length ≤ pos + fuel →
      drainAux fuel ch pos =
        ch.log.drop (max pos (ch.log.length - broadcastCapacity)) := by
  intro fuel
  induction fuel with
  | zero =>
      intro pos h
      have hge : ch.log.length ≤ max pos (ch.log.length - broadcastCapacity) :=
        le_trans (by omega) (le_max_left _ _)
      simp [drainAux, List.drop_eq_nil_of_le hge]
  | succ fuel ih =>
      intro pos h
      by_cases hlt : max pos (ch.log.length - broadcastCapacity) < ch.log.length
      · have hstep : recvStep ch pos =
            some (ch.log.get ⟨max pos (ch.log.length - broadcastCapacity), hlt⟩,
              max pos (ch.log.length - broadcastCapacity) + 1) := by
          simp only [recvStep]
          rw [dif_pos hlt]
        simp only [drainAux, hstep]
        have hcap : ch.log.length - broadcastCapacity ≤
            max pos (ch.log.length - broadcastCapacity) + 1 :=
          le_trans (le_max_right _ _) (Nat.le_succ _)
        have hnext := ih (max pos (ch.log.length - broadcastCapacity) + 1)
          (by omega)
        rw [hnext, Nat.max_eq_left hcap]
        exact (List.drop_eq_get_cons hlt).symm
      · have hstep : recvStep ch pos = none := by
          simp only [recvStep]
          rw [dif_neg hlt]
        simp only [drainAux, hstep]
        rw [List.drop_eq_nil_of_le (not_lt.mp hlt)]

/-- `drain` in closed form. -/
lemma drain_eq_drop (ch : BroadcastChan α) (s : BroadcastSub) :
    drain ch s = ch.log.drop (max s.pos (ch.log.length - broadcastCapacity)) :=
  drainAux_eq_drop ch ch.log.length s.pos (by omega)

/-- Claim C2 counterexample: the claim says each peer connected at
publication time observes exactly one tagged frame per published Grant;
but the per-peer subscription is a `broadcast::channel(16)` — when 17
Grants are published before the peer's forwarding task drains (e.g. while
its `ws.send` is blocked on a slow socket), the oldest Grant is dropped by
ring-buffer lag and the peer observes no frame for it at all. -/
theorem C2_lag_drop_cex :
    (subscribe (BroadcastChan.mk ([] : List GrantMessage))).pos = 0 ∧
    chBurst.log.get? 0 = some (grantAt 0) ∧
    chBurst.log.length = 17 ∧
    (∀ x ∈ drain chBurst ⟨0⟩, x.tab_id ≠ (grantAt 0).tab_id) ∧
    (∀ f ∈ (drain chBurst ⟨0⟩).map grantFrame,
      f.get "tab_id" ≠ some (JVal.str (grantAt 0).tab_id)) := by
  have hmsg : ∀ x ∈ drain chBurst ⟨0⟩, x.tab_id ≠ (grantAt 0).tab_id := by
    decide
  refine ⟨rfl, rfl, rfl, hmsg, ?_⟩
  intro f hf
  simp only [List.mem_map] at hf
  obtain ⟨x, hx, rfl⟩ := hf
  intro heq
  have hfix : (grantFrame x).get "tab_id" = some (JVal.str x.tab_id) := rfl
  rw [hfix] at heq
  simp only [Option.some.injEq, JVal.str.injEq] at heq
  exact hmsg x hx heq

/-- Claim C2 (amended): a peer subscribed at or before a publication whose
forwarder stays within the channel's 16-entry buffer observes exactly the
messages published after its subscription — each exactly once, in
publication order, as a tagged frame; a subscriber never observes anything
published before it subscribed (no replay or backlog), even after further
publications. -/
theorem C2_broadcast_amended (ch : BroadcastChan GrantMessage)
    (s : BroadcastSub) (h1 : s.pos ≤ ch.log.length)
    (h2 : ch.log.length - s.pos ≤ broadcastCapacity) :
    drain ch s = ch.log.drop s.pos ∧
    (drain ch s).map grantFrame = (ch.log.drop s.pos).map grantFrame ∧
    (∀ g : GrantMessage,
      (grantFrame g).get "type" = some (JVal.str "Grant") ∧
      (grantFrame g).get "tab_id" = some (JVal.str g.tab_id)) ∧
    (∀ ch' : BroadcastChan GrantMessage, drain ch' (subscribe ch') = []) ∧
    (∀ (more : List GrantMessage) (g : GrantMessage),
      g ∈ drain ⟨ch.log ++ more⟩ (subscribe ch) → g ∈ more) := by
  have hmax : max s.pos (ch.log.length - broadcastCapacity) = s.pos :=
    Nat.max_eq_left (by omega)
  have hdr : drain ch s = ch.log.drop s.pos := by
    rw [drain_eq_drop, hmax]
  refine ⟨hdr, by rw [hdr], fun g => ⟨rfl, rfl⟩, ?_, ?_⟩
  · intro ch'
    rw [drain_eq_drop]
    exact List.drop_eq_nil_of_le (le_max_left _ _)
  · intro more g hg
    rw [drain_eq_drop] at hg
    have hlen : ch.log.length ≤ max (subscribe ch).pos
        ((⟨ch.log ++ more⟩ : BroadcastChan GrantMessage).log.length -
          broadcastCapacity) :=
      le_max_left _ _
    obtain ⟨k, hk⟩ := Nat.exists_eq_add_of_le hlen
    rw [show (⟨ch.log ++ more⟩ : BroadcastChan GrantMessage).log =
          ch.log ++ more from rfl, hk, List.drop_append k] at hg
    exact List.drop_subset _ _ hg

/-- Claim C2 witness: a peer subscribed from the start and within capacity
observes both published Grants, once each, in order. -/
theorem C2_broadcast_amended_witness :
    drain c2small ⟨0⟩ = c2small.log :=
  ((C2_broadcast_amended c2small ⟨0⟩ (by decide) (by decide)).1).trans
    (by rfl)

/-- Lookup misses a list none of whose keys is the searched key. -/
lemma lookup_none_of_ne (k : String) :
    ∀ l : List (String × JVal), (∀ kv ∈ l, k ≠ kv.1) → l.lookup k = none := by
  intro l
  induction l with
  | nil => intro _; rfl
  | cons kv rest ih =>
      intro h
      obtain ⟨a, b⟩ := kv
      have hab : (k == a) = false :=
        beq_eq_false_iff_ne.mpr (h (a, b) (by simp))
      simp only [List.lookup, hab]
      exact ih (fun kv hkv => h kv (by simp [hkv]))

/-- Lookup skips a prefix it misses. -/
lemma lookup_append_of_none (k : String) :
    ∀ (l₁ l₂ : List (String × JVal)), l₁.lookup k = none →
      (l₁ ++ l₂).lookup k = l₂.lookup k := by
  intro l₁
  induction l₁ with
  | nil => intro l₂ _; rfl
  | cons kv rest ih =>
      intro l₂ h
      obtain ⟨a, b⟩ := kv
      cases hab : (k == a) with
      | true => simp [List.lookup, hab] at h
      | false =>
          simp only [List.lookup, hab] at h
          simp only [List.cons_append, List.lookup, hab]
          exact ih l₂ h

/-- Filtering out the known-key entries does not change lookups of an
unknown key. -/
lemma filter_lookup_eq (k : String) (hk : k ∉ knownCookieKeys) :
    ∀ fields : List (String × JVal),
      (fields.filter (fun kv => !(knownCookieKeys.contains kv.1))).lookup k =
        fields.lookup k := by
  intro fields
  induction fields with
  | nil => rfl
  | cons kv rest ih =>
      obtain ⟨a, b⟩ := kv
      by_cases hmem : a ∈ knownCookieKeys
      · have hab : (k == a) = false :=
          beq_eq_false_iff_ne.mpr (fun he => hk (by rw [he]; exact hmem))
        simp [List.filter_cons, hmem, List.lookup, hab]
        simpa using ih
      · cases hab : (k == a) with
        | true => simp [List.filter_cons, hmem, List.lookup, hab]
        | false =>
            simp [List.filter_cons, hmem, List.lookup, hab]
            simpa using ih

/-- A successful cookie decode captures exactly the unknown fields in
`extra`. -/
lemma decodeCookie_extra (fields : List (String × JVal)) (c : Cookie)
    (hd : decodeCookie (.obj fields) = some c) :
    c.extra = fields.filter (fun kv => !(knownCookieKeys.contains kv.1)) := by
  rcases hq : decodeCookieReq fields with _ | q
  · simp [decodeCookie, hq] at hd
  rcases ha : decodeCookieOptsA fields with _ | a
  · simp [decodeCookie, hq, ha] at hd
  rcases hb : decodeCookieOptsB fields with _ | b
  · simp [decodeCookie, hq, ha, hb] at hd
  obtain ⟨n, v, d, p⟩ := q
  obtain ⟨e1, e2, e3, e4, e5⟩ := a
  obtain ⟨f1, f2, f3, f4, f5⟩ := b
  simp only [decodeCookie, hq, ha, hb] at hd
  have h2 := Option.some.inj hd
  rw [← h2]

/-- An encoded cookie's lookup at a key outside the declared struct fields
lands in the flattened `extra` map. -/
lemma encode_get_unknown (c : Cookie) (k : String)
    (hk : k ∉ knownCookieKeys) :
    (encodeCookie c).get k = c.extra.lookup k := by
  have h1 : (k == "domain") = false := beq_eq_false_iff_ne.mpr
    (fun he => hk (by rw [he]; decide))
  have h2 : (k == "expires") = false := beq_eq_false_iff_ne.mpr
    (fun he => hk (by rw [he]; decide))
  have h3 : (k == "httpOnly") = false := beq_eq_false_iff_ne.mpr
    (fun he => hk (by rw [he]; decide))
  have h4 : (k == "name") = false := beq_eq_false_iff_ne.mpr
    (fun he => hk (by rw [he]; decide))
  have h5 : (k == "path") = false := beq_eq_false_iff_ne.mpr
    (fun he => hk (by rw [he]; decide))
  have h6 : (k == "priority") = false := beq_eq_false_iff_ne.mpr
    (fun he => hk (by rw [he]; decide))
  have h7 : (k == "sameParty") = false := beq_eq_false_iff_ne.mpr
    (fun he => hk (by rw [he]; decide))
  have h8 : (k == "sameSite") = false := beq_eq_false_iff_ne.mpr
    (fun he => hk (by rw [he]; decide))
  have h9 : (k == "secure") = false := beq_eq_false_iff_ne.mpr
    (fun he => hk (by rw [he]; decide))
  have h10 : (k == "session") = false := beq_eq_false_iff_ne.mpr
    (fun he => hk (by rw [he]; decide))
  have h11 : (k == "size") = false := beq_eq_false_iff_ne.mpr
    (fun he => hk (by rw [he]; decide))
  have h12 : (k == "sourcePort") = false := beq_eq_false_iff_ne.mpr
    (fun he => hk (by rw [he]; decide))
  have h13 : (k == "sourceScheme") = false := beq_eq_false_iff_ne.mpr
    (fun he => hk (by rw [he]; decide))
  have h14 : (k == "value") = false := beq_eq_false_iff_ne.mpr
    (fun he => hk (by rw [he]; decide))
  simp only [encodeCookie, JVal.get]
  rw [lookup_append_of_none k _ _
    (by simp only [List.lookup, h1, h2, h3, h4, h5, h6, h7, h8, h9, h10,
      h11, h12, h13, h14])]

/-- Claim C8: the cookie interchange loader accepts exactly the two
specified shapes — a bare JSON array of cookie objects, or an object with
a `"cookies"` array field — returning the decoded sequence, and fails on
any other top-level shape; and a cookie object's fields not named in the
`Cookie` model survive a decode-then-encode round trip unchanged (the
serde-flattened `extra` map). -/
theorem C8_loader_shapes_and_roundtrip :
    (∀ (xs : List JVal) (cookies : List Cookie),
      xs.mapM decodeCookie = some cookies →
      universal_cookie_loader (.arr xs) = .ok cookies) ∧
    (∀ (fields : List (String × JVal)) (xs : List JVal)
        (cookies : List Cookie),
      fields.lookup "cookies" = some (.arr xs) →
      xs.mapM decodeCookie = some cookies →
      universal_cookie_loader (.obj fields) = .ok cookies) ∧
    (∀ v : JVal, v.asArr = none →
      (v.get "cookies").bind JVal.asArr = none →
      ∃ e, universal_cookie_loader v = .error e) ∧
    (∀ (fields : List (String × JVal)) (c : Cookie) (k : String),
      decodeCookie (.obj fields) = some c →
      k ∉ knownCookieKeys →
      (encodeCookie c).get k = fields.lookup k) := by
  refine ⟨?_, ?_, ?_, ?_⟩
  · intro xs cookies h
    simp only [universal_cookie_loader, JVal.asArr, h]
  · intro fields xs cookies h1 h2
    simp only [universal_cookie_loader, JVal.asArr, JVal.get, h1,
      Option.some_bind, h2]
  · intro v h1 h2
    exact ⟨"Unknown cookie JSON format",
      by simp only [universal_cookie_loader, h1, h2]⟩
  · intro fields c k hd hk
    have hex := decodeCookie_extra fields c hd
    rw [encode_get_unknown c k hk, hex, filter_lookup_eq k hk fields]

/-- Claim C8 witness: both accepted file shapes decode a concrete cookie
object, and its unknown `weird` field survives the round trip. -/
theorem C8_loader_shapes_and_roundtrip_witness :
    universal_cookie_loader (.arr [.obj c8fields]) = .ok [c8cookie] ∧
    universal_cookie_loader
      (.obj [("cookies", JVal.arr [.obj c8fields])]) = .ok [c8cookie] ∧
    (encodeCookie c8cookie).get "weird" = some (JVal.str "keepme") :=
  ⟨C8_loader_shapes_and_roundtrip.1 [.obj c8fields] [c8cookie] (by rfl),
   C8_loader_shapes_and_roundtrip.2.1
     [("cookies", JVal.arr [.obj c8fields])] [.obj c8fields] [c8cookie]
     rfl (by rfl),
   (C8_loader_shapes_and_roundtrip.2.2.2 c8fields c8cookie "weird"
     (by rfl) (by decide)).trans (by rfl)⟩

end Sharekaro
